import Mathlib

/-!
Verification development for the dao-dashboard repository.

The repository tracks procurement dossiers ("DAOs").  This file gives a
shallow embedding of the data model and of the operations relevant to the
specification: the status/progress derivation, DAO serial-number
generation, task add/update/delete/rename endpoints (both the express and
mongodb backend variants), role gating, and the password-reset token
service.  Machine numbers are modelled as Nat/Int, timestamps as a Nat
parameter passed explicitly ("now"), and fallible routes return Except.
-/

namespace DaoDash

/-- Authenticated roles (shared/dao UserRole: "admin" | "user"). -/
inductive Role where
  | admin
  | user
deriving DecidableEq, Repr

/-- Traffic-light dossier status from the spec:
completed / urgent / safe / default (the 4-day deadband). -/
inductive DaoStatus where
  | completed
  | urgent
  | safe
  | deadband
deriving DecidableEq, Repr

/-- Team member roles ("chef_equipe" | "membre_equipe"). -/
inductive TeamRole where
  | chefEquipe
  | membreEquipe
deriving DecidableEq, Repr

/-- TeamMember entity (shared/dao). -/
structure TeamMember where
  id : String
  name : String
  role : TeamRole
  email : Option String
deriving DecidableEq, Repr

/-- DaoTask entity (shared/dao).  `progress` is a JS number or null,
modelled as `Option Int`; timestamps are abstract Nat instants. -/
structure DaoTask where
  id : Nat
  name : String
  progress : Option Int
  comment : Option String
  isApplicable : Bool
  assignedTo : Option String
  lastUpdatedBy : Option String
  lastUpdatedAt : Option Nat
deriving DecidableEq, Repr

/-- Dao entity (shared/dao).  `dateDepot` stays an opaque string. -/
structure Dao where
  id : String
  numeroListe : String
  objetDossier : String
  reference : String
  autoriteContractante : String
  dateDepot : String
  equipe : List TeamMember
  tasks : List DaoTask
  createdAt : Nat
  updatedAt : Nat
deriving DecidableEq, Repr

/-- Typed failures of the API routes (HTTP error codes of the sources). -/
inductive ApiError where
  | validationError
  | invalidId
  | daoNotFound
  | taskNotFound
  | duplicateNumber
  | forbidden
  | yearLimitExceeded
deriving DecidableEq, Repr

/-- Route results are compared in closed witnesses, so `Except` needs
decidable equality. -/
instance {ε α : Type} [DecidableEq ε] [DecidableEq α] :
    DecidableEq (Except ε α) := fun a b =>
  match a, b with
  | .ok x, .ok y =>
    if h : x = y then .isTrue (by rw [h]) else
      .isFalse (by intro hc; cases hc; exact h rfl)
  | .error x, .error y =>
    if h : x = y then .isTrue (by rw [h]) else
      .isFalse (by intro hc; cases hc; exact h rfl)
  | .ok _, .error _ => .isFalse (by intro hc; cases hc)
  | .error _, .ok _ => .isFalse (by intro hc; cases hc)

/-! ## Status / progress engine -/

/-- Modelled from the spec: `calculateDaoStatus(dateDepot, progress)` is
imported by src/unnamed/part_016, src/frontend/contexts/NotificationContext.tsx
and src/frontend/components/GlobalExportDialog.tsx from a shared module that
is not present under src/.  Following the spec (section 4.1), the date pair
`(dateDepot, today)` is abstracted to the whole-day difference `daysDiff`;
the priority cascade is the spec's items 1-5. -/
def calculateDaoStatus (daysDiff : Int) (progress : Int) : DaoStatus :=
  if progress == 100 then .completed
  else if daysDiff < 0 then .urgent
  else if daysDiff >= 5 then .safe
  else if daysDiff <= 3 then .urgent
  else .deadband

/-- From src/unnamed/part_016 lines 113-129 (`getProgressColor`): the same
cascade, returning tailwind color classes; `daysDiff` is captured from the
enclosing component. -/
def getProgressColor (daysDiff : Int) (progress : Int) : String :=
  if progress == 100 then "bg-gray-400"
  else if daysDiff < 0 then "bg-red-500"
  else if daysDiff >= 5 then "bg-green-500"
  else if daysDiff <= 3 then "bg-red-500"
  else "bg-blue-500"

/-- The color class that src/unnamed/part_016 renders for each status. -/
def statusColor : DaoStatus → String
  | .completed => "bg-gray-400"
  | .urgent => "bg-red-500"
  | .safe => "bg-green-500"
  | .deadband => "bg-blue-500"

/-- Modelled from the spec: `calculateDaoProgress(tasks)` is imported from
the same missing shared module.  Spec section 4.1: consider only tasks with
`isApplicable = true`; if none, result 0 (the spec's primary convention);
otherwise round(average of applicable `progress`, null as 0) to the nearest
integer (JS `Math.round`, half toward positive infinity: `floor(x + 1/2)`),
clamped to [0,100]. -/
def calculateDaoProgress (tasks : List DaoTask) : Int :=
  let applicable := tasks.filter (fun t => t.isApplicable)
  if applicable.length = 0 then 0
  else
    let s : Int := (applicable.map (fun t => t.progress.getD 0)).sum
    let c : Int := applicable.length
    let r : Int := Int.fdiv (2 * s + c) (2 * c)
    max 0 (min 100 r)

/-- The rounded average stated the spec's way, for comparison: sum of the
applicable tasks' progress values (null as 0) divided by their count,
rounded half-up, clamped to [0,100]. -/
def roundedAvgApplicable (tasks : List DaoTask) : Int :=
  let s : Int := (tasks.filter (fun t => t.isApplicable)).foldr
    (fun t acc => t.progress.getD 0 + acc) 0
  let c : Int := (tasks.filter (fun t => t.isApplicable)).length
  max 0 (min 100 (Int.fdiv (2 * s + c) (2 * c)))

/-! ## String helpers (sanitizeString of both route files) -/

/-- Drop characters up to and including the first `>` (the `[^>]*>` part of
the JS regex `/<[^>]*>/g`); `none` when no `>` remains, in which case the
regex cannot match at this position. -/
def dropThroughGt : List Char → Option (List Char)
  | [] => none
  | c :: rest => if c = '>' then some rest else dropThroughGt rest

/-- The JS global replace `input.replace(/<[^>]*>/g, "")` over the
character list: each match runs from a `<` to the first following `>`;
a `<` with no later `>` stays.  Structural recursion on a fuel bound (the
list length suffices: every recursive call consumes at least one
character, and with fuel 0 the list is already empty). -/
def stripTagsFuel : Nat → List Char → List Char
  | 0, l => l
  | _ + 1, [] => []
  | fuel + 1, c :: rest =>
    if c = '<' then
      match dropThroughGt rest with
      | some rest2 => stripTagsFuel fuel rest2
      | none => c :: rest
    else c :: stripTagsFuel fuel rest

def stripTags (l : List Char) : List Char := stripTagsFuel l.length l

/-- JS `String.prototype.trim`: drop whitespace from both ends, over the
character list. -/
def trimChars (l : List Char) : List Char :=
  ((l.dropWhile Char.isWhitespace).reverse.dropWhile Char.isWhitespace).reverse

/-- `sanitizeString` from src/backend-express/routes/dao-simple.ts:
remove HTML tags, then trim. -/
def sanitizeString (s : String) : String :=
  String.mk (trimChars (stripTags s.toList))

/-- JS `String.prototype.toLowerCase`, character-wise over the list. -/
def toLowerStr (s : String) : String :=
  String.mk (s.toList.map Char.toLower)

/-! ## List helpers -/

/-- Replace the first element satisfying `p` (JS `find` + in-place mutation
of the found object). -/
def updateFirst {α : Type} (p : α → Bool) (f : α → α) : List α → List α
  | [] => []
  | x :: xs => if p x then f x :: xs else x :: updateFirst p f xs

/-- Remove the element at the first index satisfying `p`
(JS `findIndex` + `splice(index, 1)`). -/
def removeFirst {α : Type} (p : α → Bool) : List α → List α
  | [] => []
  | x :: xs => if p x then xs else x :: removeFirst p xs

/-- `Math.max(...l)` for a list of naturals (all values here are ≥ 0,
so the empty fold base 0 is only reached when the code guards length). -/
def listMax (l : List Nat) : Nat := l.foldr max 0

/-- First value bound to `k` (JS object property read). -/
def lookupAssoc {β : Type} (k : String) : List (String × β) → Option β
  | [] => none
  | (k2, v) :: rest => if k2 == k then some v else lookupAssoc k rest

/-- Bind `k` to `v`, shadowing/removing any previous binding
(JS object property write). -/
def insertAssoc {β : Type} (k : String) (v : β) (l : List (String × β)) :
    List (String × β) :=
  (k, v) :: l.filter (fun p => !(p.1 == k))

/-- Remove the binding of `k` (JS `delete obj[k]`). -/
def deleteAssoc {β : Type} (k : String) (l : List (String × β)) :
    List (String × β) :=
  l.filter (fun p => !(p.1 == k))

/-! ## Role middleware

From src/backend-mongodb/src/middleware/auth.ts (`authorize`,
`requireAdmin`, `requireUser`).  The express backend imports middleware of
the same names from a file that is not under src/; the spec's operation ×
role matrix (section 4.3) matches this in-src variant. -/

def authorize (roles : List Role) (r : Role) : Bool := roles.contains r

def requireAdmin (r : Role) : Bool := authorize [.admin] r

def requireUser (r : Role) : Bool := authorize [.admin, .user] r

/-! ## Task update (PUT /api/dao/:id/tasks/:taskId, both backends) -/

/-- Body of a task update (`taskUpdateSchema` of dao-simple.ts; the mongodb
route destructures the same four fields untyped). -/
structure TaskPatch where
  progress : Option Int
  comment : Option String
  isApplicable : Option Bool
  assignedTo : Option String
deriving DecidableEq, Repr

/-- `taskUpdateSchema` of dao-simple.ts: progress 0..100 when present,
comment at most 1000 chars, assignedTo at most 50 chars. -/
def taskUpdateSchemaValid (p : TaskPatch) : Bool :=
  (match p.progress with
   | some v => decide (0 ≤ v) && decide (v ≤ 100)
   | none => true) &&
  (match p.comment with
   | some c => decide (c.length ≤ 1000)
   | none => true) &&
  (match p.assignedTo with
   | some a => decide (a.length ≤ 50)
   | none => true)

/-- Field application of the express task-update route
(dao-simple.ts lines 474-488): each field is written only when present
(`typeof x === "..."` on the parsed body), comment and assignedTo are
sanitized, progress is stored as supplied, then the audit stamps. -/
def applyTaskPatchExpress (patch : TaskPatch) (actorId : String) (now : Nat)
    (t : DaoTask) : DaoTask :=
  let t1 := match patch.progress with
    | some p => { t with progress := some p }
    | none => t
  let t2 := match patch.comment with
    | some c => { t1 with comment := some (sanitizeString c) }
    | none => t1
  let t3 := match patch.isApplicable with
    | some b => { t2 with isApplicable := b }
    | none => t2
  let t4 := match patch.assignedTo with
    | some a => { t3 with assignedTo := some (sanitizeString a) }
    | none => t3
  { t4 with lastUpdatedBy := some actorId, lastUpdatedAt := some now }

/-- Field application of the mongodb task-update route
(backend-mongodb/src/routes/dao.ts lines 244-262): progress is clamped with
`Math.max(0, Math.min(100, progress))`, strings are stored raw, then the
audit stamps. -/
def applyTaskPatchMongo (patch : TaskPatch) (actorId : String) (now : Nat)
    (t : DaoTask) : DaoTask :=
  let t1 := match patch.progress with
    | some p => { t with progress := some (max 0 (min 100 p)) }
    | none => t
  let t2 := match patch.comment with
    | some c => { t1 with comment := some c }
    | none => t1
  let t3 := match patch.isApplicable with
    | some b => { t2 with isApplicable := b }
    | none => t2
  let t4 := match patch.assignedTo with
    | some a => { t3 with assignedTo := some a }
    | none => t3
  { t4 with lastUpdatedBy := some actorId, lastUpdatedAt := some now }

/-- PUT /api/dao/:id/tasks/:taskId of dao-simple.ts over the storage list:
role gate (requireUser), DAO id check, task id check (`parseInt < 1`),
schema validation, DAO lookup, task lookup, then the in-place update of the
found task and `updateAtIndex`.  Errors leave the storage unchanged. -/
def updateTaskRouteExpress (role : Role) (daos : List Dao) (id : String)
    (taskId : Nat) (patch : TaskPatch) (actorId : String) (now : Nat) :
    Except ApiError Dao × List Dao :=
  if !(requireUser role) then (.error .forbidden, daos)
  else if id.length = 0 ∨ 100 < id.length then (.error .invalidId, daos)
  else if taskId < 1 then (.error .invalidId, daos)
  else if !(taskUpdateSchemaValid patch) then (.error .validationError, daos)
  else match daos.find? (fun d => d.id == id) with
    | none => (.error .daoNotFound, daos)
    | some dao =>
      match dao.tasks.find? (fun t => t.id == taskId) with
      | none => (.error .taskNotFound, daos)
      | some _ =>
        let dao2 : Dao := { dao with
          tasks := updateFirst (fun t => t.id == taskId)
            (applyTaskPatchExpress patch actorId now) dao.tasks,
          updatedAt := now }
        (.ok dao2, updateFirst (fun d => d.id == id) (fun _ => dao2) daos)

/-- PUT /api/dao/:id/tasks/:taskId of backend-mongodb/src/routes/dao.ts
over the storage list: role gate, DAO lookup (findById), task lookup, then
the typed field writes and `dao.save()`.  No body schema validation; the
task id only has to parse (any Nat).  Errors leave the storage unchanged. -/
def updateTaskRouteMongo (role : Role) (daos : List Dao) (id : String)
    (taskId : Nat) (patch : TaskPatch) (actorId : String) (now : Nat) :
    Except ApiError Dao × List Dao :=
  if !(requireUser role) then (.error .forbidden, daos)
  else match daos.find? (fun d => d.id == id) with
    | none => (.error .daoNotFound, daos)
    | some dao =>
      match dao.tasks.find? (fun t => t.id == taskId) with
      | none => (.error .taskNotFound, daos)
      | some _ =>
        let dao2 : Dao := { dao with
          tasks := updateFirst (fun t => t.id == taskId)
            (applyTaskPatchMongo patch actorId now) dao.tasks,
          updatedAt := now }
        (.ok dao2, updateFirst (fun d => d.id == id) (fun _ => dao2) daos)

/-! ## Task add / rename / delete (dao-simple.ts, admin only) -/

/-- Body of POST /api/dao/:daoId/tasks (`createTaskSchema`). -/
structure TaskDraft where
  name : String
  isApplicable : Bool
  progress : Option Int
  comment : Option String
  assignedTo : Option String
deriving DecidableEq, Repr

/-- `createTaskSchema`: name 1..200 chars, progress 0..100 or null,
comment at most 1000 chars, assignedTo at most 50 chars. -/
def createTaskSchemaValid (d : TaskDraft) : Bool :=
  decide (1 ≤ d.name.length) && decide (d.name.length ≤ 200) &&
  (match d.progress with
   | some v => decide (0 ≤ v) && decide (v ≤ 100)
   | none => true) &&
  (match d.comment with
   | some c => decide (c.length ≤ 1000)
   | none => true) &&
  (match d.assignedTo with
   | some a => decide (a.length ≤ 50)
   | none => true)

/-- POST /api/dao/:daoId/tasks (dao-simple.ts lines 547-623) on the found
Dao: admin gate, schema validation, new id
`existingIds.length > 0 ? Math.max(...existingIds) + 1 : 1`, progress
forced to null when the draft is not applicable, comment sanitized when
truthy (the empty string is falsy in JS and becomes undefined), append,
bump updatedAt. -/
def addTaskRoute (role : Role) (dao : Dao) (draft : TaskDraft)
    (actorId : String) (now : Nat) : Except ApiError Dao :=
  if !(requireAdmin role) then .error .forbidden
  else if !(createTaskSchemaValid draft) then .error .validationError
  else
    let existingIds := dao.tasks.map (fun t => t.id)
    let newId := if 0 < existingIds.length then listMax existingIds + 1 else 1
    let newTask : DaoTask := {
      id := newId,
      name := sanitizeString draft.name,
      progress := if draft.isApplicable then draft.progress else none,
      comment := match draft.comment with
        | some c => if c.length == 0 then none else some (sanitizeString c)
        | none => none,
      isApplicable := draft.isApplicable,
      assignedTo := draft.assignedTo,
      lastUpdatedBy := some actorId,
      lastUpdatedAt := some now }
    .ok { dao with tasks := dao.tasks ++ [newTask], updatedAt := now }

/-- PUT /api/dao/:daoId/tasks/:taskId/name (dao-simple.ts lines 626-704) on
the found Dao: admin gate, task id check, `updateTaskNameSchema`
(name 1..200), task lookup, sanitized rename plus audit stamps. -/
def renameTaskRoute (role : Role) (dao : Dao) (taskId : Nat) (name : String)
    (actorId : String) (now : Nat) : Except ApiError Dao :=
  if !(requireAdmin role) then .error .forbidden
  else if taskId < 1 then .error .invalidId
  else if !(decide (1 ≤ name.length) && decide (name.length ≤ 200)) then
    .error .validationError
  else match dao.tasks.find? (fun t => t.id == taskId) with
    | none => .error .taskNotFound
    | some _ =>
      .ok { dao with
        tasks := updateFirst (fun t => t.id == taskId)
          (fun t => { t with
            name := sanitizeString name,
            lastUpdatedBy := some actorId,
            lastUpdatedAt := some now }) dao.tasks,
        updatedAt := now }

/-- DELETE /api/dao/:daoId/tasks/:taskId (dao-simple.ts lines 707-774) on
the found Dao: admin gate, task id check, `findIndex` then
`splice(taskIndex, 1)` (remaining ids are not renumbered), bump updatedAt. -/
def deleteTaskRoute (role : Role) (dao : Dao) (taskId : Nat) (now : Nat) :
    Except ApiError Dao :=
  if !(requireAdmin role) then .error .forbidden
  else if taskId < 1 then .error .invalidId
  else match dao.tasks.find? (fun t => t.id == taskId) with
    | none => .error .taskNotFound
    | some _ =>
      .ok { dao with
        tasks := removeFirst (fun t => t.id == taskId) dao.tasks,
        updatedAt := now }

/-! ## General Dao update (PUT /api/dao/:id, dao-simple.ts lines 277-377) -/

/-- `teamMemberSchema`: id 1..50 chars, name 1..100 chars, role enum
(made total by the `TeamRole` type); the `z.string().email()` check on the
optional email is a collaborator-format test abstracted as present-or-not. -/
def teamMemberSchemaValid (m : TeamMember) : Bool :=
  decide (1 ≤ m.id.length) && decide (m.id.length ≤ 50) &&
  decide (1 ≤ m.name.length) && decide (m.name.length ≤ 100)

/-- `taskSchema` of dao-simple.ts: id ≥ 1, name 1..200, progress 0..100 or
null, comment ≤ 1000, assignedTo ≤ 50, lastUpdatedBy ≤ 50. -/
def taskSchemaValid (t : DaoTask) : Bool :=
  decide (1 ≤ t.id) &&
  decide (1 ≤ t.name.length) && decide (t.name.length ≤ 200) &&
  (match t.progress with
   | some v => decide (0 ≤ v) && decide (v ≤ 100)
   | none => true) &&
  (match t.comment with
   | some c => decide (c.length ≤ 1000)
   | none => true) &&
  (match t.assignedTo with
   | some a => decide (a.length ≤ 50)
   | none => true) &&
  (match t.lastUpdatedBy with
   | some a => decide (a.length ≤ 50)
   | none => true)

/-- Body of PUT /api/dao/:id (`updateDaoSchema = createDaoSchema.partial()`):
every field optional; absent fields are absent from the parsed object. -/
structure DaoUpdateBody where
  numeroListe : Option String
  objetDossier : Option String
  reference : Option String
  autoriteContractante : Option String
  dateDepot : Option String
  equipe : Option (List TeamMember)
  tasks : Option (List DaoTask)
deriving DecidableEq, Repr

/-- `updateDaoSchema` field bounds.  The `dateDepot` refine
(`!isNaN(Date.parse(date))`) is a JS built-in parse abstracted as accepting
(no claim in scope touches it). -/
def updateDaoSchemaValid (b : DaoUpdateBody) : Bool :=
  (match b.numeroListe with
   | some s => decide (1 ≤ s.length) && decide (s.length ≤ 50)
   | none => true) &&
  (match b.objetDossier with
   | some s => decide (1 ≤ s.length) && decide (s.length ≤ 500)
   | none => true) &&
  (match b.reference with
   | some s => decide (1 ≤ s.length) && decide (s.length ≤ 200)
   | none => true) &&
  (match b.autoriteContractante with
   | some s => decide (1 ≤ s.length) && decide (s.length ≤ 200)
   | none => true) &&
  (match b.equipe with
   | some ms => decide (1 ≤ ms.length) && decide (ms.length ≤ 20) &&
       ms.all teamMemberSchemaValid
   | none => true) &&
  (match b.tasks with
   | some ts => decide (ts.length ≤ 50) && ts.all taskSchemaValid
   | none => true)

/-- The merge `{ ...currentDao, ...sanitizedUpdates, updatedAt: now }`:
present fields replace wholesale; numeroListe, objetDossier, reference,
autoriteContractante and the equipe member names are sanitized (their
schema lower bound 1 makes the JS truthiness guard always taken);
dateDepot and tasks pass through unsanitized. -/
def mergeDaoUpdate (dao : Dao) (b : DaoUpdateBody) (now : Nat) : Dao :=
  { dao with
    numeroListe := match b.numeroListe with
      | some s => sanitizeString s
      | none => dao.numeroListe,
    objetDossier := match b.objetDossier with
      | some s => sanitizeString s
      | none => dao.objetDossier,
    reference := match b.reference with
      | some s => sanitizeString s
      | none => dao.reference,
    autoriteContractante := match b.autoriteContractante with
      | some s => sanitizeString s
      | none => dao.autoriteContractante,
    dateDepot := (b.dateDepot).getD dao.dateDepot,
    equipe := match b.equipe with
      | some ms => ms.map (fun m => { m with name := sanitizeString m.name })
      | none => dao.equipe,
    tasks := (b.tasks).getD dao.tasks,
    updatedAt := now }

/-- PUT /api/dao/:id over the storage list: requireUser gate, id check,
schema validation, `findIndexById`, duplicate-numeroListe check against the
whole store (raw body value, other ids only), then merge and
`updateAtIndex`. -/
def updateDaoRoute (role : Role) (daos : List Dao) (id : String)
    (b : DaoUpdateBody) (now : Nat) : Except ApiError Dao × List Dao :=
  if !(requireUser role) then (.error .forbidden, daos)
  else if id.length = 0 ∨ 100 < id.length then (.error .invalidId, daos)
  else if !(updateDaoSchemaValid b) then (.error .validationError, daos)
  else match daos.find? (fun d => d.id == id) with
    | none => (.error .daoNotFound, daos)
    | some dao =>
      let dup := match b.numeroListe with
        | some n => daos.any (fun d => !(d.id == id) && d.numeroListe == n)
        | none => false
      if dup then (.error .duplicateNumber, daos)
      else
        let dao2 := mergeDaoUpdate dao b now
        (.ok dao2, updateFirst (fun d => d.id == id) (fun _ => dao2) daos)

/-! ## DAO serial-number generation -/

/-- Numeric value of a decimal digit character. -/
def digitVal (c : Char) : Nat := c.toNat - 48

/-- The anchored regex `^DAO-(\d{4})-(\d{3})$` of
GET /api/dao/next-number (dao-simple.ts lines 109-124): the whole string
must be `DAO-` then four digits, `-`, three digits; returns
(year, sequence). -/
def parseDaoNumChars : List Char → Option (Nat × Nat)
  | ['D', 'A', 'O', '-', a, b, c, d, '-', e, f, g] =>
    if a.isDigit && b.isDigit && c.isDigit && d.isDigit &&
        e.isDigit && f.isDigit && g.isDigit then
      some (1000 * digitVal a + 100 * digitVal b + 10 * digitVal c + digitVal d,
            100 * digitVal e + 10 * digitVal f + digitVal g)
    else none
  | _ => none

def parseDaoNum (s : String) : Option (Nat × Nat) :=
  parseDaoNumChars s.toList

/-- `numeroListe` matches the current year
(`match && parseInt(match[1], 10) === year`). -/
def matchesYear (year : Nat) (s : String) : Bool :=
  match parseDaoNum s with
  | some (y, _) => y == year
  | none => false

/-- The 3-digit capture as a number (`match ? parseInt(match[1], 10) : 0`). -/
def seqValue (s : String) : Nat :=
  match parseDaoNum s with
  | some (_, n) => n
  | none => 0

/-- JS `String(n).padStart(3, "0")`. -/
def padStart3 (n : Nat) : String :=
  let s := toString n
  if 3 ≤ s.length then s else String.mk (List.replicate (3 - s.length) '0') ++ s

/-- The body of GET /api/dao/next-number after the year filter
(dao-simple.ts lines 114-136): default `DAO-<year>-001`; otherwise extract
the sequence values, drop non-positive ones, `Math.max(...) + 1` (1 when
nothing positive), reject above 999 (YEAR_LIMIT_EXCEEDED), else pad. -/
def nextFromFiltered (year : Nat) (currentYear : List String) :
    Except ApiError String :=
  if currentYear.length = 0 then .ok ("DAO-" ++ toString year ++ "-001")
  else
    let numbers := (currentYear.map seqValue).filter (fun n => decide (0 < n))
    let nextNumber := if 0 < numbers.length then listMax numbers + 1 else 1
    if 999 < nextNumber then .error .yearLimitExceeded
    else .ok ("DAO-" ++ toString year ++ "-" ++ padStart3 nextNumber)

/-- GET /api/dao/next-number of dao-simple.ts, over the stored
`numeroListe` serials and the current year. -/
def nextDaoNumberRoute (numeros : List String) (year : Nat) :
    Except ApiError String :=
  nextFromFiltered year (numeros.filter (matchesYear year))

/-- One attempt of the unanchored regex `/DAO-\d{4}-(\d{3})/` at the head
of the character list (fixed-length pattern, any suffix may follow);
returns the 3-digit capture. -/
def matchDaoAnywhereAt : List Char → Option Nat
  | 'D' :: 'A' :: 'O' :: '-' :: a :: b :: c :: d :: '-' :: e :: f :: g :: _ =>
    if a.isDigit && b.isDigit && c.isDigit && d.isDigit &&
        e.isDigit && f.isDigit && g.isDigit then
      some (100 * digitVal e + 10 * digitVal f + digitVal g)
    else none
  | _ => none

/-- JS `s.match(/DAO-\d{4}-(\d{3})/)`: first position where the pattern
matches. -/
def searchDaoNum : List Char → Option Nat
  | [] => none
  | c :: rest =>
    match matchDaoAnywhereAt (c :: rest) with
    | some n => some n
    | none => searchDaoNum rest

/-- JS `s.startsWith(pre)` over character lists. -/
def startsWithStr (pre s : String) : Bool :=
  pre.toList.isPrefixOf s.toList

/-- `DaoService.generateNextDaoNumber` (backend-express/services/daoService.ts
lines 35-63) over the stored serials: MongoDB prefix filter
`^DAO-<year>-`, default `DAO-<year>-001`, unanchored 3-digit capture
(`match ? parseInt : 0`, the NaN filter keeps everything),
`Math.max(...) + 1`, then `padStart(3, "0")` with no upper bound. -/
def generateNextDaoNumber (numeros : List String) (year : Nat) : String :=
  let existing := numeros.filter
    (fun s => startsWithStr ("DAO-" ++ toString year ++ "-") s)
  if existing.length = 0 then "DAO-" ++ toString year ++ "-001"
  else
    let numbers := existing.map (fun s => (searchDaoNum s.toList).getD 0)
    let nextNumber := if 0 < numbers.length then listMax numbers + 1 else 1
    "DAO-" ++ toString year ++ "-" ++ padStart3 nextNumber

/-! ## Password-reset tokens (src/unnamed/part_006, AuthService) -/

/-- The slice of a User the reset flow reads. -/
structure AuthUser where
  id : String
  email : String
  isActive : Bool
deriving DecidableEq, Repr

/-- A stored password: the seed hashes are opaque; `bcrypt.hash(pw, 12)` is
an external collaborator, abstracted as a constructor tagging which
plaintext was hashed. -/
inductive StoredPassword where
  | seeded (tag : String)
  | hashed (plain : String)
deriving DecidableEq, Repr

/-- `resetTokens[token] = { email, expires }`. -/
structure ResetEntry where
  email : String
  expires : Nat
deriving DecidableEq, Repr

/-- The module-level mutable stores of AuthService that the reset flow
touches (`users`, `userPasswords`, `resetTokens`), threaded explicitly. -/
structure AuthState where
  users : List AuthUser
  userPasswords : List (String × StoredPassword)
  resetTokens : List (String × ResetEntry)
deriving DecidableEq, Repr

/-- `users.find(u => u.email.toLowerCase() === email.toLowerCase()
&& u.isActive)`. -/
def findActiveByEmail (users : List AuthUser) (email : String) :
    Option AuthUser :=
  users.find? (fun u => toLowerStr u.email == toLowerStr email && u.isActive)

/-- `AuthService.generateResetToken`: for an active user, store the token
with expiry `now + 15 * 60 * 1000` ms; the random token itself is supplied
by the caller of the model.  Time is an explicit Nat of milliseconds. -/
def generateResetToken (st : AuthState) (email : String) (token : String)
    (now : Nat) : Option String × AuthState :=
  match findActiveByEmail st.users email with
  | none => (none, st)
  | some u =>
    (some token,
      { st with resetTokens :=
          insertAssoc token ⟨u.email, now + 15 * 60 * 1000⟩ st.resetTokens })

/-- `AuthService.verifyResetToken`: unknown token fails; email mismatch
(case-insensitive) fails; `new Date() > expires` deletes the token and
fails; otherwise succeeds without consuming. -/
def verifyResetToken (st : AuthState) (token : String) (email : String)
    (now : Nat) : Bool × AuthState :=
  match lookupAssoc token st.resetTokens with
  | none => (false, st)
  | some rd =>
    if !(toLowerStr rd.email == toLowerStr email) then (false, st)
    else if rd.expires < now then
      (false, { st with resetTokens := deleteAssoc token st.resetTokens })
    else (true, st)

/-- `AuthService.resetPasswordWithToken`: verify, re-find the active user,
store the new hash, and delete the used token. -/
def resetPasswordWithToken (st : AuthState) (token : String) (email : String)
    (newPassword : String) (now : Nat) : Bool × AuthState :=
  let v := verifyResetToken st token email now
  if !v.1 then (false, v.2)
  else match findActiveByEmail v.2.users email with
    | none => (false, v.2)
    | some u =>
      (true,
        { v.2 with
          userPasswords :=
            insertAssoc u.email (StoredPassword.hashed newPassword)
              v.2.userPasswords,
          resetTokens := deleteAssoc token v.2.resetTokens })

/-! ## Auxiliary notions used by the statements -/

/-- Two tasks agree observably for the progress computation: same
applicability, and equal outright when applicable.  Non-applicable tasks
may differ in every other field. -/
def taskObsEq (t t2 : DaoTask) : Prop :=
  t.isApplicable = t2.isApplicable ∧ (t.isApplicable = true → t = t2)

/-- The Dao produced by a successful express task update. -/
def daoAfterExpress (dao : Dao) (taskId : Nat) (patch : TaskPatch)
    (actorId : String) (now : Nat) : Dao :=
  { dao with
    tasks := updateFirst (fun t => t.id == taskId)
      (applyTaskPatchExpress patch actorId now) dao.tasks,
    updatedAt := now }

/-- The Dao produced by a successful mongodb task update. -/
def daoAfterMongo (dao : Dao) (taskId : Nat) (patch : TaskPatch)
    (actorId : String) (now : Nat) : Dao :=
  { dao with
    tasks := updateFirst (fun t => t.id == taskId)
      (applyTaskPatchMongo patch actorId now) dao.tasks,
    updatedAt := now }

/-! ## Concrete sample data for witnesses and counterexamples -/

def memberM1 : TeamMember :=
  { id := "m1", name := "Chef", role := .chefEquipe, email := none }

def task1 : DaoTask :=
  { id := 1, name := "Tache un", progress := some 50, comment := none,
    isApplicable := true, assignedTo := none,
    lastUpdatedBy := none, lastUpdatedAt := none }

def task2 : DaoTask :=
  { id := 2, name := "Tache deux", progress := some 80, comment := none,
    isApplicable := true, assignedTo := none,
    lastUpdatedBy := none, lastUpdatedAt := none }

def task3 : DaoTask :=
  { id := 3, name := "Tache trois", progress := none, comment := none,
    isApplicable := false, assignedTo := none,
    lastUpdatedBy := none, lastUpdatedAt := none }

def sampleDao : Dao :=
  { id := "d1", numeroListe := "DAO-2025-001", objetDossier := "Objet",
    reference := "REF1", autoriteContractante := "AC1",
    dateDepot := "2025-06-01", equipe := [memberM1],
    tasks := [task1, task2, task3], createdAt := 0, updatedAt := 0 }

def sampleDraft : TaskDraft :=
  { name := "Nouvelle tache", isApplicable := true, progress := none,
    comment := none, assignedTo := none }

/-- `task3` with every field but the applicability flag changed. -/
def task3alt : DaoTask :=
  { id := 97, name := "Autre nom", progress := some 99,
    comment := some "changed", isApplicable := false,
    assignedTo := some "mX", lastUpdatedBy := some "uX",
    lastUpdatedAt := some 42 }

/-!
# Theorems

One theorem per claim (helper lemmas are shared), followed by the
closed witnesses and counterexamples.
-/

/-- C1: `calculateDaoStatus(dateDepot, progress)` follows the priority
cascade exactly: progress = 100 gives completed regardless of the date;
otherwise daysDiff < 0 gives urgent, daysDiff ≥ 5 gives safe, daysDiff ≤ 3
gives urgent, daysDiff = 4 gives the blue deadband default; and
`getProgressColor` of src/unnamed/part_016 renders exactly these statuses'
colors. -/
theorem c1_calculateDaoStatus_cascade (daysDiff progress : Int) :
    (progress = 100 → calculateDaoStatus daysDiff progress = .completed) ∧
    (progress ≠ 100 → daysDiff < 0 →
      calculateDaoStatus daysDiff progress = .urgent) ∧
    (progress ≠ 100 → 5 ≤ daysDiff →
      calculateDaoStatus daysDiff progress = .safe) ∧
    (progress ≠ 100 → daysDiff ≤ 3 →
      calculateDaoStatus daysDiff progress = .urgent) ∧
    (progress ≠ 100 → daysDiff = 4 →
      calculateDaoStatus daysDiff progress = .deadband) ∧
    getProgressColor daysDiff progress =
      statusColor (calculateDaoStatus daysDiff progress) := by
  unfold calculateDaoStatus getProgressColor
  refine ⟨?_, ?_, ?_, ?_, ?_, ?_⟩
  · intro hp
    simp [hp]
  · intro hp hd
    simp [beq_iff_eq, hp, hd]
  · intro hp hd
    have h0 : ¬ daysDiff < 0 := by omega
    simp [beq_iff_eq, hp, h0, ge_iff_le, hd]
  · intro hp hd
    by_cases h0 : daysDiff < 0
    · simp [beq_iff_eq, hp, h0]
    · have h5 : ¬ (5 ≤ daysDiff) := by omega
      simp [beq_iff_eq, hp, h0, ge_iff_le, h5, hd]
  · intro hp hd
    subst hd
    simp [beq_iff_eq, hp]
  · split_ifs <;> simp [statusColor]

/-- C1 witness: the three boundary values at progress 50. -/
theorem c1_witness :
    calculateDaoStatus 5 50 = DaoStatus.safe ∧
    calculateDaoStatus 4 50 = DaoStatus.deadband ∧
    calculateDaoStatus 3 50 = DaoStatus.urgent :=
  ⟨(c1_calculateDaoStatus_cascade 5 50).2.2.1 (by decide) (by decide),
   (c1_calculateDaoStatus_cascade 4 50).2.2.2.2.1 (by decide) (by decide),
   (c1_calculateDaoStatus_cascade 3 50).2.2.2.1 (by decide) (by decide)⟩

/-- The explicit fold of `roundedAvgApplicable` is the sum over the map. -/
theorem foldr_add_eq_sum_map (l : List DaoTask) :
    l.foldr (fun t acc => t.progress.getD 0 + acc) 0 =
    (l.map (fun t => t.progress.getD 0)).sum := by
  induction l with
  | nil => rfl
  | cons a tl ih => simp [List.sum_cons, ih]

/-- Observably equal task lists have equal applicable sublists. -/
theorem filter_taskObsEq (l l2 : List DaoTask)
    (h : List.Forall₂ taskObsEq l l2) :
    l.filter (fun t => t.isApplicable) = l2.filter (fun t => t.isApplicable) := by
  induction h with
  | nil => rfl
  | @cons a b la lb hab htl ih =>
    obtain ⟨hap, heq⟩ := hab
    by_cases happ : a.isApplicable = true
    · have hb : b.isApplicable = true := hap ▸ happ
      rw [List.filter_cons_of_pos (by simpa using happ),
        List.filter_cons_of_pos (by simpa using hb), heq happ, ih]
    · have hb : ¬ (b.isApplicable = true) := hap ▸ happ
      rw [List.filter_cons_of_neg (by simpa using happ),
        List.filter_cons_of_neg (by simpa using hb), ih]

/-- C2: `calculateDaoProgress(tasks)` is the rounded average of the
progress values of exactly the applicable tasks (null as 0), clamped to
[0,100]; it is invariant under reordering of the list and under any change
to the fields of non-applicable tasks. -/
theorem c2_calculateDaoProgress_average (tasks tasks2 tasks3 : List DaoTask) :
    calculateDaoProgress tasks = roundedAvgApplicable tasks ∧
    (List.Perm tasks tasks2 →
      calculateDaoProgress tasks2 = calculateDaoProgress tasks) ∧
    (List.Forall₂ taskObsEq tasks tasks3 →
      calculateDaoProgress tasks3 = calculateDaoProgress tasks) := by
  refine ⟨?_, ?_, ?_⟩
  · unfold calculateDaoProgress roundedAvgApplicable
    simp only [foldr_add_eq_sum_map]
    by_cases h : (tasks.filter (fun t => t.isApplicable)).length = 0
    · have hnil : tasks.filter (fun t => t.isApplicable) = [] :=
        List.length_eq_zero.mp h
      simp [hnil]
    · simp [h]
  · intro hp
    have hf := hp.filter (fun t => t.isApplicable)
    have hlen := hf.length_eq
    have hsum := (hf.map (fun t => t.progress.getD 0)).sum_eq
    simp only [calculateDaoProgress]
    rw [hlen, hsum]
  · intro h
    simp only [calculateDaoProgress, filter_taskObsEq tasks tasks3 h]

/-- C2 witness: a 50%-progress applicable task next to a non-applicable
task; reordering and rewriting the non-applicable task's fields do not
change the result. -/
theorem c2_witness :
    calculateDaoProgress [task1, task3] = roundedAvgApplicable [task1, task3] ∧
    calculateDaoProgress [task3, task1] = calculateDaoProgress [task1, task3] ∧
    calculateDaoProgress [task1, task3alt] =
      calculateDaoProgress [task1, task3] :=
  ⟨(c2_calculateDaoProgress_average [task1, task3] [] []).1,
   (c2_calculateDaoProgress_average [task1, task3] [task3, task1] []).2.1
     (by decide),
   (c2_calculateDaoProgress_average [task1, task3] [] [task1, task3alt]).2.2
     (List.Forall₂.cons ⟨rfl, fun _ => rfl⟩
       (List.Forall₂.cons ⟨rfl, fun hx => absurd hx (by decide)⟩
         List.Forall₂.nil))⟩

/-- Dropping the non-positive entries does not change the fold maximum. -/
theorem listMax_filter_pos (l : List Nat) :
    listMax (l.filter fun n => decide (0 < n)) = listMax l := by
  induction l with
  | nil => rfl
  | cons a tl ih =>
    by_cases ha : 0 < a
    · rw [List.filter_cons_of_pos (by simpa using ha)]
      simp only [listMax, List.foldr_cons] at ih ⊢
      rw [ih]
    · rw [List.filter_cons_of_neg (by simpa using ha)]
      have ha0 : a = 0 := by omega
      subst ha0
      simp only [listMax, List.foldr_cons] at ih ⊢
      rw [ih, Nat.zero_max]

/-- Every element is bounded by the fold maximum. -/
theorem le_listMax (l : List Nat) : ∀ x ∈ l, x ≤ listMax l := by
  induction l with
  | nil => intro x hx; cases hx
  | cons a tl ih =>
    intro x hx
    rcases List.mem_cons.mp hx with h | h
    · subst h
      simp only [listMax, List.foldr_cons]
      exact Nat.le_max_left _ _
    · simp only [listMax, List.foldr_cons]
      exact Nat.le_trans (ih x h) (Nat.le_max_right _ _)

/-- C3 (amended): the GET /api/dao/next-number implementation of
dao-simple.ts satisfies the full contract — serials of other years (or not
matching the anchored `^DAO-<year>-(\d{3})$` shape) are ignored, no match
gives `DAO-<year>-001`, otherwise the result is max+1 zero-padded, and the
route fails with YEAR_LIMIT_EXCEEDED when max+1 exceeds 999.
(`DaoService.generateNextDaoNumber` violates the cap — see the
counterexample.) -/
theorem c3_nextDaoNumber_route (numeros : List String) (year : Nat)
    (s : String) :
    (matchesYear year s = false →
      nextDaoNumberRoute (s :: numeros) year = nextDaoNumberRoute numeros year) ∧
    ((∀ x ∈ numeros, matchesYear year x = false) →
      nextDaoNumberRoute numeros year =
        .ok ("DAO-" ++ toString year ++ "-001")) ∧
    (numeros.filter (matchesYear year) ≠ [] →
      nextDaoNumberRoute numeros year =
        (if 999 < listMax ((numeros.filter (matchesYear year)).map seqValue) + 1
         then .error .yearLimitExceeded
         else .ok ("DAO-" ++ toString year ++ "-" ++
           padStart3 (listMax
             ((numeros.filter (matchesYear year)).map seqValue) + 1)))) := by
  refine ⟨?_, ?_, ?_⟩
  · intro hs
    unfold nextDaoNumberRoute
    rw [List.filter_cons_of_neg (by simp [hs])]
  · intro hall
    unfold nextDaoNumberRoute
    have hnil : numeros.filter (matchesYear year) = [] := by
      rw [List.filter_eq_nil_iff]
      intro a ha
      simp [hall a ha]
    rw [hnil]
    rfl
  · intro hne
    unfold nextDaoNumberRoute nextFromFiltered
    have hlen : ¬ ((numeros.filter (matchesYear year)).length = 0) := by
      simpa [List.length_eq_zero] using hne
    rw [if_neg hlen]
    have hmax := listMax_filter_pos ((numeros.filter (matchesYear year)).map seqValue)
    by_cases hpos :
        0 < (((numeros.filter (matchesYear year)).map seqValue).filter
          fun n => decide (0 < n)).length
    · simp only [if_pos hpos, hmax]
    · simp only [if_neg hpos]
      have hempty :
          (((numeros.filter (matchesYear year)).map seqValue).filter
            fun n => decide (0 < n)) = [] := by
        cases h2 : (((numeros.filter (matchesYear year)).map seqValue).filter
            fun n => decide (0 < n)) with
        | nil => rfl
        | cons x xs => rw [h2] at hpos; simp at hpos
      have hzero : listMax ((numeros.filter (matchesYear year)).map seqValue) = 0 := by
        rw [← hmax, hempty]
        rfl
      rw [hzero]

/-- C3 counterexample: with `DAO-2025-999` stored,
`DaoService.generateNextDaoNumber` returns `DAO-2025-1000` — a four-digit
serial, with no failure — where the claim requires failing once the next
sequence number would exceed 999. -/
theorem c3_counterexample :
    generateNextDaoNumber ["DAO-2025-999"] 2025 = "DAO-2025-1000" := by
  decide

/-- C3 witness: the spec's own example on the route implementation. -/
theorem c3_witness :
    nextDaoNumberRoute ["DAO-2025-007", "DAO-2025-003"] 2025 =
      .ok "DAO-2025-008" := by
  have h := (c3_nextDaoNumber_route ["DAO-2025-007", "DAO-2025-003"] 2025
    "unused").2.2 (by decide)
  rw [h]
  decide

/-- C4 (amended): AddTask assigns the new id `max(current ids) + 1`
(1 when the list is empty) and appends; the new id is fresh — strictly
above every current id — but it is computed from the current set, so the
id of a deleted task is reused when the deleted id was the maximum (see
the counterexample: delete 3 from {1,2,3}, then add, gives 3, not 4). -/
theorem c4_addTask_assigns_max_succ (dao : Dao) (draft : TaskDraft)
    (actor : String) (now : Nat)
    (hvalid : createTaskSchemaValid draft = true) :
    ((addTaskRoute .admin dao draft actor now).map
        (fun d => (d.tasks.map DaoTask.id, d.updatedAt)) =
      .ok (dao.tasks.map DaoTask.id ++
        [if 0 < dao.tasks.length then
          listMax (dao.tasks.map DaoTask.id) + 1 else 1], now)) ∧
    (∀ t2 ∈ dao.tasks, t2.id <
      (if 0 < dao.tasks.length then
        listMax (dao.tasks.map DaoTask.id) + 1 else 1)) := by
  constructor
  · have hrole : requireAdmin Role.admin = true := rfl
    simp [addTaskRoute, hrole, hvalid, List.length_map, Except.map,
      List.map_append]
  · intro t2 ht2
    have hpos : 0 < dao.tasks.length := List.length_pos.mpr
      (fun h => by rw [h] at ht2; cases ht2)
    rw [if_pos hpos]
    have := le_listMax (dao.tasks.map DaoTask.id) t2.id
      (List.mem_map_of_mem DaoTask.id ht2)
    omega

/-- C4 counterexample: after deleting task id 3 from a Dao with task ids
{1,2,3} and adding a task, the new task's id is 3 — the claim's
"4, not 3" (no id reuse) is false on the code. -/
theorem c4_counterexample :
    ((deleteTaskRoute .admin sampleDao 3 5).bind
      (fun d => addTaskRoute .admin d sampleDraft "admin1" 6)).map
        (fun d => d.tasks.map DaoTask.id) = .ok [1, 2, 3] := by
  decide

/-- C4 witness: adding to task ids {1,2,3} appends id 4. -/
theorem c4_witness :
    (addTaskRoute .admin sampleDao sampleDraft "admin1" 6).map
        (fun d => (d.tasks.map DaoTask.id, d.updatedAt)) =
      .ok ([1, 2, 3, 4], 6) := by
  have h := (c4_addTask_assigns_max_succ sampleDao sampleDraft "admin1" 6
    (by decide)).1
  rw [h]
  decide

/-- Every role passes the user-level gate (authorize(["admin","user"])). -/
theorem requireUser_all (r : Role) : requireUser r = true := by
  cases r <;> rfl

/-- C5: updating a task id absent from the Dao fails with TASK_NOT_FOUND
and leaves the storage (hence the Dao, its updatedAt and every task's
audit fields) unchanged, on both backends. -/
theorem c5_updateTask_missing_atomic (role : Role) (daos : List Dao)
    (id : String) (taskId : Nat) (patch : TaskPatch) (actor : String)
    (now : Nat) (dao : Dao)
    (hfind : daos.find? (fun d => d.id == id) = some dao)
    (hmiss : ∀ t ∈ dao.tasks, t.id ≠ taskId)
    (htid : 1 ≤ taskId)
    (hvalid : taskUpdateSchemaValid patch = true)
    (hid1 : 1 ≤ id.length) (hid2 : id.length ≤ 100) :
    updateTaskRouteExpress role daos id taskId patch actor now =
      (.error .taskNotFound, daos) ∧
    updateTaskRouteMongo role daos id taskId patch actor now =
      (.error .taskNotFound, daos) := by
  have hnone : dao.tasks.find? (fun t => t.id == taskId) = none := by
    rw [List.find?_eq_none]
    intro t ht
    simpa using hmiss t ht
  have hc1 : ¬ (id.length = 0 ∨ 100 < id.length) := by omega
  have hc2 : ¬ taskId < 1 := by omega
  constructor
  · simp [updateTaskRouteExpress, requireUser_all, hc1, hc2, hvalid, hfind,
      hnone]
  · simp [updateTaskRouteMongo, requireUser_all, hfind, hnone]

/-- C5 witness: task id 9 is absent from the sample Dao. -/
theorem c5_witness :
    updateTaskRouteExpress .user [sampleDao] "d1" 9
        ⟨none, none, none, none⟩ "u1" 7 = (.error .taskNotFound, [sampleDao]) ∧
    updateTaskRouteMongo .user [sampleDao] "d1" 9
        ⟨none, none, none, none⟩ "u1" 7 = (.error .taskNotFound, [sampleDao]) :=
  c5_updateTask_missing_atomic .user [sampleDao] "d1" 9
    ⟨none, none, none, none⟩ "u1" 7 sampleDao (by decide) (by decide)
    (by decide) (by decide) (by decide) (by decide)

/-- The express patch application never touches the task id. -/
theorem applyTaskPatchExpress_id (patch : TaskPatch) (actor : String)
    (now : Nat) (t : DaoTask) :
    (applyTaskPatchExpress patch actor now t).id = t.id := by
  rcases patch with ⟨pr, co, ap, asg⟩
  cases pr <;> cases co <;> cases ap <;> cases asg <;> rfl

/-- The mongodb patch application never touches the task id. -/
theorem applyTaskPatchMongo_id (patch : TaskPatch) (actor : String)
    (now : Nat) (t : DaoTask) :
    (applyTaskPatchMongo patch actor now t).id = t.id := by
  rcases patch with ⟨pr, co, ap, asg⟩
  cases pr <;> cases co <;> cases ap <;> cases asg <;> rfl

/-- Finding after an in-place update returns the updated element, as long
as the update preserves the predicate. -/
theorem find?_updateFirst {α : Type} (p : α → Bool) (f : α → α)
    (l : List α) (hpf : ∀ a, p a = true → p (f a) = true) :
    (updateFirst p f l).find? p = (l.find? p).map f := by
  induction l with
  | nil => rfl
  | cons x xs ih =>
    by_cases hx : p x = true
    · simp only [updateFirst, if_pos hx]
      rw [List.find?_cons_of_pos _ (hpf x hx), List.find?_cons_of_pos _ hx]
      rfl
    · simp only [updateFirst, if_neg hx]
      rw [List.find?_cons_of_neg _ hx, List.find?_cons_of_neg _ hx, ih]

/-- C6 (amended): a task update whose patch carries any `assignedTo` value
succeeds and stores the (sanitized) supplied id on the task — membership
of the id in `dao.equipe` is never checked, and no InvalidReference error
exists on this path. -/
theorem c6_assignedTo_unchecked (role : Role) (daos : List Dao)
    (id : String) (taskId : Nat) (patch : TaskPatch) (actor : String)
    (now : Nat) (dao : Dao) (t : DaoTask) (m : String)
    (hfind : daos.find? (fun d => d.id == id) = some dao)
    (htask : dao.tasks.find? (fun x => x.id == taskId) = some t)
    (hassign : patch.assignedTo = some m)
    (hvalid : taskUpdateSchemaValid patch = true)
    (htid : 1 ≤ taskId) (hid1 : 1 ≤ id.length) (hid2 : id.length ≤ 100) :
    (updateTaskRouteExpress role daos id taskId patch actor now).1 =
      .ok (daoAfterExpress dao taskId patch actor now) ∧
    (daoAfterExpress dao taskId patch actor now).tasks.find?
        (fun x => x.id == taskId) =
      some (applyTaskPatchExpress patch actor now t) ∧
    (applyTaskPatchExpress patch actor now t).assignedTo =
      some (sanitizeString m) := by
  have hc1 : ¬ (id.length = 0 ∨ 100 < id.length) := by omega
  have hc2 : ¬ taskId < 1 := by omega
  refine ⟨?_, ?_, ?_⟩
  · simp [updateTaskRouteExpress, requireUser_all, hc1, hc2, hvalid, hfind,
      htask, daoAfterExpress]
  · show (updateFirst (fun x => x.id == taskId)
        (applyTaskPatchExpress patch actor now) dao.tasks).find?
        (fun x => x.id == taskId) = _
    rw [find?_updateFirst _ _ _ (fun a ha => by
      rw [show ((applyTaskPatchExpress patch actor now a).id == taskId) =
        (a.id == taskId) from by rw [applyTaskPatchExpress_id]]
      exact ha), htask]
    rfl
  · rcases patch with ⟨pr, co, ap, asg⟩
    simp only at hassign
    subst hassign
    cases pr <;> cases co <;> cases ap <;> rfl

/-- C6 counterexample: assigning task 1 to the id "ghost", absent from the
sample Dao's team (whose only member id is "m1"), succeeds on both
backends and stores the dangling id — the claimed InvalidReference failure
does not happen. -/
theorem c6_counterexample :
    ((updateTaskRouteExpress .user [sampleDao] "d1" 1
        ⟨none, none, none, some "ghost"⟩ "u1" 9).1.map
      (fun d => d.tasks.map DaoTask.assignedTo) =
        .ok [some "ghost", none, none]) ∧
    ((updateTaskRouteMongo .user [sampleDao] "d1" 1
        ⟨none, none, none, some "ghost"⟩ "u1" 9).1.map
      (fun d => d.tasks.map DaoTask.assignedTo) =
        .ok [some "ghost", none, none]) ∧
    sampleDao.equipe.map TeamMember.id = ["m1"] := by
  decide

/-- C6 witness: the amended theorem at the "ghost" assignment. -/
theorem c6_witness :
    (updateTaskRouteExpress .user [sampleDao] "d1" 1
        ⟨none, none, none, some "ghost"⟩ "u1" 9).1 =
      .ok (daoAfterExpress sampleDao 1 ⟨none, none, none, some "ghost"⟩
        "u1" 9) :=
  (c6_assignedTo_unchecked .user [sampleDao] "d1" 1
    ⟨none, none, none, some "ghost"⟩ "u1" 9 sampleDao task1 "ghost"
    (by decide) (by decide) rfl (by decide) (by decide) (by decide)
    (by decide)).1

/-- C7 (amended): UpdateTask applies only the fields present in the patch
(absent fields keep their prior values; id and name are never touched); a
supplied progress is clamped to [0,100] by the mongodb route — the express
route stores the schema-validated value as supplied — and setting
isApplicable to false does not force progress to null: with no progress in
the patch the prior value stays. -/
theorem c7_updateTask_patch_semantics (patch : TaskPatch) (actor : String)
    (now : Nat) (t : DaoTask) :
    (∀ p, patch.progress = some p →
      (applyTaskPatchMongo patch actor now t).progress =
        some (max 0 (min 100 p))) ∧
    (patch.progress = none →
      (applyTaskPatchMongo patch actor now t).progress = t.progress) ∧
    (∀ c, patch.comment = some c →
      (applyTaskPatchMongo patch actor now t).comment = some c) ∧
    (patch.comment = none →
      (applyTaskPatchMongo patch actor now t).comment = t.comment) ∧
    (∀ b, patch.isApplicable = some b →
      (applyTaskPatchMongo patch actor now t).isApplicable = b) ∧
    (patch.isApplicable = none →
      (applyTaskPatchMongo patch actor now t).isApplicable = t.isApplicable) ∧
    (∀ a, patch.assignedTo = some a →
      (applyTaskPatchMongo patch actor now t).assignedTo = some a) ∧
    (patch.assignedTo = none →
      (applyTaskPatchMongo patch actor now t).assignedTo = t.assignedTo) ∧
    (applyTaskPatchMongo patch actor now t).id = t.id ∧
    (applyTaskPatchMongo patch actor now t).name = t.name ∧
    (∀ p, patch.progress = some p →
      (applyTaskPatchExpress patch actor now t).progress = some p) ∧
    (patch.isApplicable = some false → patch.progress = none →
      (applyTaskPatchMongo patch actor now t).progress = t.progress) := by
  rcases patch with ⟨pr, co, ap, asg⟩
  cases pr <;> cases co <;> cases ap <;> cases asg <;>
    simp [applyTaskPatchMongo, applyTaskPatchExpress]

/-- C7 counterexample: patching task 1 of the sample Dao with
isApplicable = false leaves its progress at 50 on both backends — the
claimed "progress forced to null" does not happen. -/
theorem c7_counterexample :
    ((updateTaskRouteMongo .user [sampleDao] "d1" 1
        ⟨none, none, some false, none⟩ "u1" 9).1.map
      (fun d => d.tasks.map DaoTask.progress) =
        .ok [some 50, some 80, none]) ∧
    ((updateTaskRouteExpress .user [sampleDao] "d1" 1
        ⟨none, none, some false, none⟩ "u1" 9).1.map
      (fun d => d.tasks.map DaoTask.progress) =
        .ok [some 50, some 80, none]) ∧
    ((updateTaskRouteMongo .user [sampleDao] "d1" 1
        ⟨none, none, some false, none⟩ "u1" 9).1.map
      (fun d => d.tasks.map DaoTask.isApplicable) =
        .ok [false, true, false]) := by
  decide

/-- C7 witness: clamping of an out-of-range progress and preservation of
progress when only the applicability flag is patched off. -/
theorem c7_witness :
    (applyTaskPatchMongo ⟨some 150, none, none, none⟩ "u1" 3 task1).progress =
      some 100 ∧
    (applyTaskPatchMongo ⟨none, none, some false, none⟩ "u1" 3
      task1).progress = task1.progress := by
  refine ⟨?_, ?_⟩
  · have h := (c7_updateTask_patch_semantics ⟨some 150, none, none, none⟩
      "u1" 3 task1).1 150 rfl
    rw [h]
    decide
  · exact (c7_updateTask_patch_semantics ⟨none, none, some false, none⟩
      "u1" 3 task1).2.2.2.2.2.2.2.2.2.2.2 rfl rfl

/-- C8: for a user-role actor, AddTask, DeleteTask and task rename fail
with Forbidden (admin-only), while UpdateTask on
progress/comment/applicability/assignment succeeds for the same actor. -/
theorem c8_task_operation_role_matrix (dao : Dao) (draft : TaskDraft)
    (taskId : Nat) (name2 : String) (daos : List Dao) (id : String)
    (patch : TaskPatch) (actor : String) (now : Nat) :
    addTaskRoute .user dao draft actor now = .error .forbidden ∧
    deleteTaskRoute .user dao taskId now = .error .forbidden ∧
    renameTaskRoute .user dao taskId name2 actor now = .error .forbidden ∧
    (∀ d t, daos.find? (fun x => x.id == id) = some d →
      d.tasks.find? (fun x => x.id == taskId) = some t →
      taskUpdateSchemaValid patch = true → 1 ≤ taskId →
      1 ≤ id.length → id.length ≤ 100 →
      (updateTaskRouteExpress .user daos id taskId patch actor now).1 =
        .ok (daoAfterExpress d taskId patch actor now)) := by
  refine ⟨rfl, rfl, rfl, ?_⟩
  intro d t hfind htask hvalid htid hid1 hid2
  have hc1 : ¬ (id.length = 0 ∨ 100 < id.length) := by omega
  have hc2 : ¬ taskId < 1 := by omega
  simp [updateTaskRouteExpress, requireUser_all, hc1, hc2, hvalid, hfind,
    htask, daoAfterExpress]

/-- C8 witness: the sample Dao with the user role. -/
theorem c8_witness :
    addTaskRoute .user sampleDao sampleDraft "u1" 7 = .error .forbidden ∧
    deleteTaskRoute .user sampleDao 1 7 = .error .forbidden ∧
    renameTaskRoute .user sampleDao 1 "Nom" "u1" 7 = .error .forbidden ∧
    (updateTaskRouteExpress .user [sampleDao] "d1" 1
        ⟨some 60, none, none, none⟩ "u1" 7).1 =
      .ok (daoAfterExpress sampleDao 1 ⟨some 60, none, none, none⟩ "u1" 7) :=
  ⟨(c8_task_operation_role_matrix sampleDao sampleDraft 1 "Nom" [sampleDao]
      "d1" ⟨some 60, none, none, none⟩ "u1" 7).1,
   (c8_task_operation_role_matrix sampleDao sampleDraft 1 "Nom" [sampleDao]
      "d1" ⟨some 60, none, none, none⟩ "u1" 7).2.1,
   (c8_task_operation_role_matrix sampleDao sampleDraft 1 "Nom" [sampleDao]
      "d1" ⟨some 60, none, none, none⟩ "u1" 7).2.2.1,
   (c8_task_operation_role_matrix sampleDao sampleDraft 1 "Nom" [sampleDao]
      "d1" ⟨some 60, none, none, none⟩ "u1" 7).2.2.2 sampleDao task1
      (by decide) (by decide) (by decide) (by decide) (by decide)
      (by decide)⟩

/-- Reading right after a shadowing write returns the written value. -/
theorem lookupAssoc_insertAssoc {β : Type} (k : String) (v : β)
    (l : List (String × β)) :
    lookupAssoc k (insertAssoc k v l) = some v := by
  simp [insertAssoc, lookupAssoc]

/-- Reading after a delete of the same key finds nothing. -/
theorem lookupAssoc_deleteAssoc {β : Type} (k : String)
    (l : List (String × β)) :
    lookupAssoc k (deleteAssoc k l) = none := by
  induction l with
  | nil => rfl
  | cons p rest ih =>
    rcases p with ⟨k2, v⟩
    by_cases hk : (k2 == k) = true
    · simpa [deleteAssoc, List.filter_cons, hk] using ih
    · simpa [deleteAssoc, List.filter_cons, hk, lookupAssoc] using ih

/-- A stored token whose expiry is strictly past fails verification. -/
theorem verifyResetToken_expired (st2 : AuthState) (token email : String)
    (e : ResetEntry) (now : Nat)
    (hl : lookupAssoc token st2.resetTokens = some e)
    (hm : (toLowerStr e.email == toLowerStr email) = true)
    (hexp : e.expires < now) :
    (verifyResetToken st2 token email now).1 = false := by
  simp [verifyResetToken, hl, hm, hexp]

/-- A stored, unexpired token with matching email verifies and leaves the
state unchanged. -/
theorem verifyResetToken_valid (st2 : AuthState) (token email : String)
    (e : ResetEntry) (now : Nat)
    (hl : lookupAssoc token st2.resetTokens = some e)
    (hm : (toLowerStr e.email == toLowerStr email) = true)
    (hexp : ¬ e.expires < now) :
    verifyResetToken st2 token email now = (true, st2) := by
  simp [verifyResetToken, hl, hm, hexp]

/-- A valid consume stores the new hash and deletes the token. -/
theorem resetPasswordWithToken_success (st2 : AuthState)
    (token email pw : String) (e : ResetEntry) (u : AuthUser) (now : Nat)
    (hl : lookupAssoc token st2.resetTokens = some e)
    (hm : (toLowerStr e.email == toLowerStr email) = true)
    (hexp : ¬ e.expires < now)
    (hu2 : findActiveByEmail st2.users email = some u) :
    resetPasswordWithToken st2 token email pw now =
      (true,
        { st2 with
          userPasswords :=
            insertAssoc u.email (StoredPassword.hashed pw) st2.userPasswords,
          resetTokens := deleteAssoc token st2.resetTokens }) := by
  simp [resetPasswordWithToken,
    verifyResetToken_valid st2 token email e now hl hm hexp, hu2]

/-- Consuming an absent token fails. -/
theorem resetPasswordWithToken_unknown (st2 : AuthState)
    (token email pw : String) (now : Nat)
    (hl : lookupAssoc token st2.resetTokens = none) :
    (resetPasswordWithToken st2 token email pw now).1 = false := by
  simp [resetPasswordWithToken, verifyResetToken, hl]

/-- C9: a password-reset token expires 15 minutes after issuance and is
single-use — verification 16 minutes after issuance fails even with the
correct token, while consuming it at 14 minutes succeeds exactly once and
a second use of the same token fails. -/
theorem c9_reset_token_single_use (st : AuthState)
    (email token pw : String) (u : AuthUser) (now0 : Nat)
    (hu : findActiveByEmail st.users email = some u) :
    (generateResetToken st email token now0).1 = some token ∧
    (verifyResetToken (generateResetToken st email token now0).2 token email
      (now0 + 16 * 60 * 1000)).1 = false ∧
    (resetPasswordWithToken (generateResetToken st email token now0).2 token
      email pw (now0 + 14 * 60 * 1000)).1 = true ∧
    (resetPasswordWithToken
      (resetPasswordWithToken (generateResetToken st email token now0).2
        token email pw (now0 + 14 * 60 * 1000)).2 token email pw
      (now0 + 14 * 60 * 1000)).1 = false := by
  have hval := List.find?_some
    (show List.find? _ st.users = some u by simpa [findActiveByEmail] using hu)
  rw [Bool.and_eq_true] at hval
  obtain ⟨hmail, hact⟩ := hval
  have hgen : generateResetToken st email token now0 =
      (some token,
        { st with
          resetTokens :=
            insertAssoc token ⟨u.email, now0 + 15 * 60 * 1000⟩
              st.resetTokens }) := by
    simp [generateResetToken, hu]
  have hst2tokens : ((generateResetToken st email token now0).2).resetTokens =
      insertAssoc token ⟨u.email, now0 + 15 * 60 * 1000⟩ st.resetTokens := by
    rw [hgen]
  have hst2users : ((generateResetToken st email token now0).2).users =
      st.users := by
    rw [hgen]
  have hlook : lookupAssoc token
      ((generateResetToken st email token now0).2).resetTokens =
      some ⟨u.email, now0 + 15 * 60 * 1000⟩ := by
    rw [hst2tokens]
    exact lookupAssoc_insertAssoc token _ st.resetTokens
  have hu2 : findActiveByEmail
      ((generateResetToken st email token now0).2).users email = some u := by
    rw [hst2users]
    exact hu
  have hreset := resetPasswordWithToken_success
    (generateResetToken st email token now0).2 token email pw
    ⟨u.email, now0 + 15 * 60 * 1000⟩ u (now0 + 14 * 60 * 1000)
    hlook hmail (by simp only []; omega) hu2
  refine ⟨by rw [hgen], ?_, by rw [hreset], ?_⟩
  · exact verifyResetToken_expired _ token email
      ⟨u.email, now0 + 15 * 60 * 1000⟩ _ hlook hmail
      (by simp only []; omega)
  · have hsnd := congrArg Prod.snd hreset
    rw [hsnd]
    exact resetPasswordWithToken_unknown _ token email pw _
      (lookupAssoc_deleteAssoc token _)

/-- C9 witness: a concrete active user, token issued at time 0. -/
theorem c9_witness :
    (verifyResetToken
      (generateResetToken ⟨[⟨"u1", "a@b.c", true⟩], [], []⟩ "a@b.c" "TOK123"
        0).2 "TOK123" "a@b.c" (16 * 60 * 1000)).1 = false ∧
    (resetPasswordWithToken
      (generateResetToken ⟨[⟨"u1", "a@b.c", true⟩], [], []⟩ "a@b.c" "TOK123"
        0).2 "TOK123" "a@b.c" "npw" (14 * 60 * 1000)).1 = true ∧
    (resetPasswordWithToken
      (resetPasswordWithToken
        (generateResetToken ⟨[⟨"u1", "a@b.c", true⟩], [], []⟩ "a@b.c"
          "TOK123" 0).2 "TOK123" "a@b.c" "npw" (14 * 60 * 1000)).2
      "TOK123" "a@b.c" "npw" (14 * 60 * 1000)).1 = false := by
  have h := c9_reset_token_single_use ⟨[⟨"u1", "a@b.c", true⟩], [], []⟩
    "a@b.c" "TOK123" "npw" ⟨"u1", "a@b.c", true⟩ 0 (by decide)
  exact ⟨by simpa using h.2.1, by simpa using h.2.2.1, by simpa using h.2.2.2⟩

/-- C10: a user-role actor's general Dao update whose body carries a tasks
array replaces the Dao's task list wholesale, while the dedicated task
add/delete/rename endpoints reject the same actor with Forbidden. -/
theorem c10_user_replaces_tasks (daos : List Dao) (id : String)
    (ts : List DaoTask) (now : Nat) (dao : Dao) (draft : TaskDraft)
    (taskId : Nat) (name2 : String) (actor : String)
    (hfind : daos.find? (fun d => d.id == id) = some dao)
    (hts : (decide (ts.length ≤ 50) && ts.all taskSchemaValid) = true)
    (hid1 : 1 ≤ id.length) (hid2 : id.length ≤ 100) :
    (updateDaoRoute .user daos id
        ⟨none, none, none, none, none, none, some ts⟩ now =
      (.ok (mergeDaoUpdate dao ⟨none, none, none, none, none, none, some ts⟩
          now),
       updateFirst (fun d => d.id == id)
         (fun _ => mergeDaoUpdate dao
           ⟨none, none, none, none, none, none, some ts⟩ now) daos)) ∧
    (mergeDaoUpdate dao ⟨none, none, none, none, none, none, some ts⟩
      now).tasks = ts ∧
    (mergeDaoUpdate dao ⟨none, none, none, none, none, none, some ts⟩
      now).id = dao.id ∧
    addTaskRoute .user dao draft actor now = .error .forbidden ∧
    deleteTaskRoute .user dao taskId now = .error .forbidden ∧
    renameTaskRoute .user dao taskId name2 actor now = .error .forbidden := by
  have hc1 : ¬ (id.length = 0 ∨ 100 < id.length) := by omega
  have hschema : updateDaoSchemaValid
      ⟨none, none, none, none, none, none, some ts⟩ = true := by
    simpa [updateDaoSchemaValid] using hts
  refine ⟨?_, ?_, ?_, rfl, rfl, rfl⟩
  · simp [updateDaoRoute, requireUser_all, hc1, hschema, hfind]
  · simp [mergeDaoUpdate]
  · simp [mergeDaoUpdate]

/-- C10 witness: as a user, replacing the sample Dao's three tasks with a
single task through the general update endpoint. -/
theorem c10_witness :
    (updateDaoRoute .user [sampleDao] "d1"
        ⟨none, none, none, none, none, none, some [task3]⟩ 8).1.map
      (fun d => d.tasks) = .ok [task3] := by
  have h := c10_user_replaces_tasks [sampleDao] "d1" [task3] 8 sampleDao
    sampleDraft 1 "Nom" "u1" (by decide) (by decide) (by decide) (by decide)
  have h1 : (updateDaoRoute .user [sampleDao] "d1"
      ⟨none, none, none, none, none, none, some [task3]⟩ 8).1 =
      .ok (mergeDaoUpdate sampleDao
        ⟨none, none, none, none, none, none, some [task3]⟩ 8) := by
    rw [h.1]
  rw [h1]
  simp [Except.map, h.2.1]

end DaoDash
